import Mathlib

/-!
Shallow embedding of the quality-assessment engine of
`src/data_quality.py` (function `assess_data_quality`).

Modelling conventions:
* A pandas DataFrame is a `Table`: a row count plus a list of columns,
  each column carrying its name, its inferred dtype (`int64`, `float64`
  or `object`, modelled by `Kind`), and its cells.  A cell is `Option
  Value`: `none` models a missing value (NaN / None); pandas treats NaN
  cells as equal to each other in `duplicated`, which `Option`'s
  decidable equality reproduces.
* Numeric cell values are exact rationals `ℚ`.  Non-finite floats
  (`inf`, `-inf`) are an IEEE-754 artifact outside this exact model, so
  the `isin([inf, -inf])` count of the validity analyzer is identically
  zero here; NaN is the missing marker and is already `none`.
* `datetime.now().year` is the one impure input of the Python function;
  the embedding makes it an explicit argument `currentYear` of
  `assess_data_quality`.
* Python string operations are modelled on `List Char`; `str.lower()`
  is modelled as ASCII lowercasing (the Arabic keywords are unaffected
  by lowercasing in both worlds).
* Threshold tests such as `numeric_count > len * 0.2` are embedded as
  the corresponding exact rational comparisons, written over naturals
  (`10 * numeric_count > 2 * len`); score formulas stay in `ℚ`.
-/

namespace DataQuality

/-- Inferred dtype of a column: `int64`, `float64` or `object`. -/
inductive Kind where
  | kInt
  | kFloat
  | kText
deriving DecidableEq

/-- `df[col].dtype in ['int64', 'float64']`. -/
def Kind.isNumeric : Kind → Bool
  | .kInt => true
  | .kFloat => true
  | .kText => false

/-- `str(df[col].dtype)`, as stored in `column_details`. -/
def Kind.dtypeStr : Kind → String
  | .kInt => "int64"
  | .kFloat => "float64"
  | .kText => "object"

/-- A scalar cell value: a (finite) number or a string. -/
inductive Value where
  | num (q : ℚ)
  | str (s : String)
deriving DecidableEq

/-- A cell: `none` is a missing value (NaN / None). -/
abbrev Cell := Option Value

/-- One column of the table. -/
structure Col where
  name : String
  kind : Kind
  cells : List Cell
deriving DecidableEq

/-- The in-memory table handed to the engine. -/
structure Table where
  nrows : ℕ
  cols : List Col
deriving DecidableEq

/-- Well-formedness: every column has exactly `nrows` cells. -/
def Table.WF (t : Table) : Prop :=
  ∀ c ∈ t.cols, c.cells.length = t.nrows

instance (t : Table) : Decidable t.WF := by
  unfold Table.WF; infer_instance

/-! ### String machinery (Python `str`, `re`, `float`) -/

/-- ASCII lowercasing of one character, as Python `str.lower()` does on
ASCII letters (non-ASCII characters are left unchanged). -/
def asciiLower (c : Char) : Char :=
  if 'A' ≤ c ∧ c ≤ 'Z' then Char.ofNat (c.toNat + 32) else c

/-- ASCII letter test, the regex class `[A-Za-z]`. -/
def isAsciiAlpha (c : Char) : Bool :=
  ('A' ≤ c ∧ c ≤ 'Z') ∨ ('a' ≤ c ∧ c ≤ 'z')

/-- ASCII digit test, the regex class `[0-9]`. -/
def isAsciiDigit (c : Char) : Bool :=
  '0' ≤ c ∧ c ≤ '9'

/-- Regex word character `\w` (ASCII fragment), for `\b` boundaries. -/
def isWordChar (c : Char) : Bool :=
  isAsciiAlpha c || isAsciiDigit c || c = '_'

/-- The regex class `[a-zA-Z0-9._%+-]` (local part of the email regex). -/
def isLocalChar (c : Char) : Bool :=
  isAsciiAlpha c || isAsciiDigit c || c = '.' || c = '_' || c = '%' || c = '+' || c = '-'

/-- The regex class `[a-zA-Z0-9.-]` (domain part of the email regex). -/
def isDomainChar (c : Char) : Bool :=
  isAsciiAlpha c || isAsciiDigit c || c = '.' || c = '-'

/-- Python `needle in haystack` on strings (substring containment). -/
def containsSub (pat : List Char) : List Char → Bool
  | [] => pat.isEmpty
  | c :: rest => pat.isPrefixOf (c :: rest) || containsSub pat rest

/-- Full match of `r'^[a-zA-Z0-9._%+-]+@[a-zA-Z0-9.-]+\.[a-zA-Z]{2,}$'`
(the email pattern at src/data_quality.py:105).  Since none of the
three character classes contains `@`, a matching string decomposes at
its unique `@`; and since `[a-zA-Z]` excludes `.`, the final `\.` of
the pattern must match the last dot after the `@`.  (The model treats
`$` as end-of-string; Python's `$` would also accept one trailing
newline, which table cells do not produce.) -/
def emailMatch (s : List Char) : Bool :=
  let localPart := s.takeWhile (fun c => c ≠ '@')
  let rest := s.drop (localPart.length + 1)
  decide (localPart.length < s.length) &&   -- an '@' exists
  (!localPart.isEmpty) && localPart.all isLocalChar &&
  (!rest.any (fun c => c = '@')) &&
  -- rest must be  domain+ '.' alpha{2,}  split at its last dot
  (let tld := (rest.reverse.takeWhile (fun c => c ≠ '.')).reverse
   let hasDot := rest.any (fun c => c = '.')
   let dom := rest.take (rest.length - tld.length - 1)
   hasDot && (!dom.isEmpty) && dom.all isDomainChar &&
   decide (2 ≤ tld.length) && tld.all isAsciiAlpha)

/-- Model of Python `float(str)` acceptance used by the type-mixture
probe: optional surrounding spaces, optional sign, then either an
`inf`/`infinity`/`nan` word or a decimal numeral `digits [. digits]
[e|E [sign] digits]` with at least one digit in the mantissa.  (Python
additionally accepts underscore separators and unicode spaces; no claim
depends on those corners.) -/
def isPyFloatCore (s : List Char) : Bool :=
  let body := if s.head? = some '+' ∨ s.head? = some '-' then s.tail else s
  let low := body.map asciiLower
  if low = "inf".toList ∨ low = "infinity".toList ∨ low = "nan".toList then true
  else
    let intPart := body.takeWhile isAsciiDigit
    let rest1 := body.drop intPart.length
    let (fracPart, rest2) :=
      if rest1.head? = some '.' then
        (rest1.tail.takeWhile isAsciiDigit, rest1.tail.drop (rest1.tail.takeWhile isAsciiDigit).length)
      else ([], rest1)
    let mantOk := decide (0 < intPart.length + fracPart.length)
    let expOk :=
      match rest2 with
      | [] => true
      | e :: es =>
        (asciiLower e = 'e') &&
        (let es2 := if es.head? = some '+' ∨ es.head? = some '-' then es.tail else es
         (!es2.isEmpty) && es2.all isAsciiDigit && decide (es2.length = es.length ∨ es2.length + 1 = es.length))
    mantOk && expOk && decide (rest2 = [] ∨ rest2.head? = some 'e' ∨ rest2.head? = some 'E')

/-- Python `float(str(val))` succeeds, spaces stripped first. -/
def isPyFloat (s : List Char) : Bool :=
  isPyFloatCore (s.dropWhile (fun c => c = ' ') |>.reverse.dropWhile (fun c => c = ' ') |>.reverse)

/-- A match of `r'\b(19|20)\d{2}\b'` starting exactly at the front of
`s`, given whether the previous character (if any) was a word
character: four digits beginning `19` or `20`, preceded and followed by
a word boundary. -/
def yearHere (prevIsWord : Bool) (s : List Char) : Option ℤ :=
  match s with
  | d1 :: d2 :: d3 :: d4 :: rest =>
    if (!prevIsWord)
        && ((d1 = '1' && d2 = '9') || (d1 = '2' && d2 = '0'))
        && isAsciiDigit d3 && isAsciiDigit d4
        && (match rest.head? with
            | some c => !isWordChar c
            | none => true) then
      some ((1000 * (d1.toNat - 48) + 100 * (d2.toNat - 48)
             + 10 * (d3.toNat - 48) + (d4.toNat - 48) : ℕ) : ℤ)
    else none
  | _ => none

/-- Scan for the first (leftmost) match of `\b(19|20)\d{2}\b`. -/
def firstYearAux (prevIsWord : Bool) : List Char → Option ℤ
  | [] => none
  | c :: rest =>
    match yearHere prevIsWord (c :: rest) with
    | some y => some y
    | none => firstYearAux (isWordChar c) rest

/-- `re.search(r'\b(19|20)\d{2}\b', str(val))` and the subsequent
range filter of src/data_quality.py:228-234: the first embedded
four-digit year; every such match already lies in [1900, 2099] ⊆
[1900, 2100], so the `1900 <= year_val <= 2100` test always passes. -/
def firstYearMatch (s : List Char) : Option ℤ :=
  firstYearAux false s

/-- Modelled fragment of `pd.to_datetime(..., errors='coerce')`
(a pandas library call, not repository code): the model accepts
ISO-style dates `YYYY-MM-DD` or `YYYY/MM/DD` (day part optional, an
optional trailing time after a space) with plausible month/day ranges,
and yields the parsed year.  Other textual date formats pandas would
accept are outside the model; no claim depends on them. -/
def parseDateYear (s : List Char) : Option ℤ :=
  match s with
  | y1 :: y2 :: y3 :: y4 :: sep :: rest =>
    if isAsciiDigit y1 && isAsciiDigit y2 && isAsciiDigit y3 && isAsciiDigit y4
        && (sep = '-' || sep = '/') then
      let year : ℤ := (1000 * (y1.toNat - 48) + 100 * (y2.toNat - 48)
                       + 10 * (y3.toNat - 48) + (y4.toNat - 48) : ℕ)
      let month := rest.takeWhile isAsciiDigit
      let rest2 := rest.drop month.length
      let monthVal : ℕ := month.foldl (fun a c => 10 * a + (c.toNat - 48)) 0
      let monthOk := decide (month.length = 1 ∨ month.length = 2)
                     && decide (1 ≤ monthVal ∧ monthVal ≤ 12)
      match rest2 with
      | [] => if monthOk then some year else none
      | sep2 :: rest3 =>
        let day := rest3.takeWhile isAsciiDigit
        let rest4 := rest3.drop day.length
        let dayVal : ℕ := day.foldl (fun a c => 10 * a + (c.toNat - 48)) 0
        let dayOk := decide (day.length = 1 ∨ day.length = 2)
                     && decide (1 ≤ dayVal ∧ dayVal ≤ 31)
        if monthOk && (sep2 = sep) && dayOk
            && (rest4.isEmpty || rest4.head? = some ' ') then
          some year
        else none
    else none
  | _ => none

/-! ### Column-level helpers -/

/-- `str(val)`: stringification of a cell value, as a char list.  A
rational renders through its canonical `ToString`; the only properties
the analyzers use of numeric stringifications are that they contain no
`@` and match no email. -/
def strOfValue : Value → List Char
  | .num q => (toString q).toList
  | .str s => s.toList

/-- `df[col].dropna()`: the non-missing values, in order. -/
def nonNullValues (c : Col) : List Value :=
  c.cells.filterMap id

/-- The numeric non-missing values of a column (for a well-formed
numeric column this is exactly `df[col].dropna()`). -/
def nonNullNums (c : Col) : List ℚ :=
  (nonNullValues c).filterMap (fun v => match v with | .num q => some q | .str _ => none)

/-- `df[col].dropna().astype(str)`. -/
def nonNullStrs (c : Col) : List (List Char) :=
  (nonNullValues c).map strOfValue

/-- `df[col].isnull().sum()`. -/
def countMissing (c : Col) : ℕ :=
  (c.cells.filter (fun x => x.isNone)).length

/-- Lowercased column name, `str(col).lower()`. -/
def colNameLower (c : Col) : List Char :=
  c.name.toList.map asciiLower

/-! ### The engine, analyzer by analyzer (src/data_quality.py:67-321) -/

/-- `total_cells = total_rows * total_columns if ... > 0 else 1`
(line 71): the cell count, floored at 1. -/
def totalCells (t : Table) : ℕ :=
  if 0 < t.nrows * t.cols.length then t.nrows * t.cols.length else 1

/-- `missing_values = df.isnull().sum().sum()` (line 74). -/
def missingValues (t : Table) : ℕ :=
  (t.cols.map countMissing).sum

/-- `missing_percentage` (line 75). -/
def missingPercentage (t : Table) : ℚ :=
  (missingValues t : ℚ) / (totalCells t : ℚ) * 100

/-- Completeness analyzer (lines 73-76). -/
def completenessScore (t : Table) : ℚ :=
  100 - missingPercentage t

/-- Type-mixture probe of the consistency analyzer (lines 84-98): on an
object column, sample the first 100 non-missing values and count the
ones `float(str(val))` accepts; the column is type-inconsistent when
that count is strictly between 20% and 80% of the sample size. -/
def typeIncCol (c : Col) : Bool :=
  c.kind = Kind.kText &&
  (let nn := nonNullValues c
   (!nn.isEmpty) &&
   (let sample := (nn.map strOfValue).take 100
    let numericCount := (sample.filter isPyFloat).length
    -- the exact reading of `numeric_count > len * 0.2 and numeric_count < len * 0.8`
    decide (10 * numericCount > 2 * sample.length
            ∧ 10 * numericCount < 8 * sample.length)))

/-- Email-format probe of the consistency analyzer (lines 100-108).
It runs on every column (the code has no dtype guard here): when the
first non-missing stringified value contains `@`, every non-missing
stringified value failing the email regex counts as one issue. -/
def emailColIssues (c : Col) : ℕ :=
  let nn := nonNullStrs c
  match nn with
  | [] => 0
  | first :: _ =>
    if first.any (fun ch => ch = '@') then
      let invalid := (nn.filter (fun s => !emailMatch s)).length
      if 0 < invalid then invalid else 0
    else 0

/-- `consistency_issues`: invalid-email count summed over columns. -/
def consistencyIssues (t : Table) : ℕ :=
  (t.cols.map emailColIssues).sum

/-- `type_inconsistencies`: number of type-inconsistent columns. -/
def typeInconsistencies (t : Table) : ℕ :=
  (t.cols.filter typeIncCol).length

/-- Consistency score (line 110). -/
def consistencyScore (t : Table) : ℚ :=
  max 0 (100 - ((consistencyIssues t : ℚ) / (totalCells t : ℚ) * 100)
           - ((typeInconsistencies t : ℚ) * 10))

/-- Number of elements of `l` that have an earlier equal element; the
semantics of `Series.duplicated().sum()` / `DataFrame.duplicated().sum()`
(first occurrence free, NaN equal to NaN). -/
def dupCount {α : Type} [DecidableEq α] (l : List α) : ℕ :=
  l.length - l.dedup.length

/-- Row `i` of the table (the tuple of its cells across columns). -/
def rowAt (t : Table) (i : ℕ) : List Cell :=
  t.cols.map (fun c => c.cells.getD i none)

/-- The rows of the table, in order. -/
def rowsList (t : Table) : List (List Cell) :=
  (List.range t.nrows).map (rowAt t)

/-- `duplicate_rows = df.duplicated().sum()` (line 113). -/
def duplicateRows (t : Table) : ℕ :=
  dupCount (rowsList t)

/-- `duplicate_percentage` (line 114). -/
def duplicatePercentage (t : Table) : ℚ :=
  if 0 < t.nrows then (duplicateRows t : ℚ) / (t.nrows : ℚ) * 100 else 0

/-- Per-column duplicate-value count of the uniqueness analyzer
(lines 118-121): object columns count `df[col].duplicated().sum()`,
other columns contribute nothing. -/
def uniqColDup (c : Col) : ℕ :=
  if c.kind = Kind.kText then dupCount c.cells else 0

/-- `duplicate_values_count` (lines 117-121). -/
def duplicateValuesCount (t : Table) : ℕ :=
  (t.cols.map uniqColDup).sum

/-- Uniqueness score (line 123). -/
def uniquenessScore (t : Table) : ℚ :=
  max 0 (100 - duplicatePercentage t
           - ((duplicateValuesCount t : ℚ) / (totalCells t : ℚ) * 50))

/-- Column name contains `age`, `count` or `quantity`, case-insensitively
(line 142). -/
def validityNameHint (c : Col) : Bool :=
  containsSub "age".toList (colNameLower c)
  || containsSub "count".toList (colNameLower c)
  || containsSub "quantity".toList (colNameLower c)

/-- Per-column issue count of the validity analyzer (lines 128-152).
An all-missing column is skipped (`continue`).  On numeric columns the
source also counts `inf`/`-inf` values; the model's numeric domain is
exact rationals, where that count is zero (see the header note).  On a
numeric column whose name carries a hint keyword, every negative
non-missing value is one issue; on an object column, if the maximum
stringified length exceeds 1000, every value longer than 1000 is one
issue. -/
def validityColIssues (c : Col) : ℕ :=
  let nn := nonNullValues c
  if nn.isEmpty then 0
  else
    (if c.kind.isNumeric && validityNameHint c then
       ((nonNullNums c).filter (fun v => decide (v < 0))).length
     else 0)
    +
    (if c.kind = Kind.kText then
       let lens := (nn.map strOfValue).map List.length
       if 1000 < lens.foldr max 0 then (lens.filter (fun n => decide (1000 < n))).length
       else 0
     else 0)

/-- `validity_issues` (lines 126-152). -/
def validityIssues (t : Table) : ℕ :=
  (t.cols.map validityColIssues).sum

/-- Validity score (line 154). -/
def validityScore (t : Table) : ℚ :=
  max 0 (100 - ((validityIssues t : ℚ) / (totalCells t : ℚ) * 100))

/-- Pandas-default linear-interpolation quantile of a list of numbers
(`Series.quantile(p)`): on the values sorted ascending, position
`h = (m-1)p`, result `s[⌊h⌋] + (h-⌊h⌋)(s[⌊h⌋+1] - s[⌊h⌋])`. -/
def quantile (l : List ℚ) (p : ℚ) : ℚ :=
  let s := l.insertionSort (fun a b => a ≤ b)
  match s with
  | [] => 0
  | _ :: _ =>
    let h : ℚ := p * ((s.length : ℚ) - 1)
    let i := (⌊h⌋).toNat
    let lo := s.getD i 0
    let hi := s.getD (i + 1) lo
    lo + (h - ⌊h⌋) * (hi - lo)

/-- Per-column outlier count of the accuracy analyzer (lines 160-171):
a numeric column with more than 10 non-missing values and positive
interquartile range contributes the number of values strictly outside
`[Q1 - 3*IQR, Q3 + 3*IQR]`; otherwise it contributes nothing. -/
def accuracyColOutliers (c : Col) : ℕ :=
  if c.kind.isNumeric then
    let vals := nonNullNums c
    if 10 < vals.length then
      let q1 := quantile vals (1 / 4)
      let q3 := quantile vals (3 / 4)
      let iqr := q3 - q1
      if 0 < iqr then
        let lowerBound := q1 - 3 * iqr
        let upperBound := q3 + 3 * iqr
        (vals.filter (fun v => decide (v < lowerBound ∨ upperBound < v))).length
      else 0
    else 0
  else 0

/-- `accuracy_issues` (lines 158-171). -/
def accuracyIssues (t : Table) : ℕ :=
  (t.cols.map accuracyColOutliers).sum

/-- Accuracy score (line 173). -/
def accuracyScore (t : Table) : ℚ :=
  max 0 (100 - ((accuracyIssues t : ℚ) / (totalCells t : ℚ) * 50))

/-- Column name contains a year/date keyword (line 186). -/
def timelinessNameHint (c : Col) : Bool :=
  ["year", "عام", "سنة", "سنه", "تاريخ", "date"].any
    (fun kw => containsSub kw.toList (colNameLower c))

/-- What the timeliness analyzer found in one classified column: either
the raw numeric values (strategies 1 and 4, staleness judged by
`value < current_year - 10`) or a list of extracted years (strategies
2 and 3, staleness judged by `year < current_year - 10`). -/
inductive YearSrc where
  | nums (vals : List ℚ)
  | years (ys : List ℤ)
deriving DecidableEq

/-- Column classification of the timeliness analyzer (lines 182-256).
The strategies run in source order and short-circuit through the
`year_values_found` flag: (1) numeric column with more than 70% of
non-missing values in [1900, 2100]; (2) object column with more than
50% of values parsing as dates; (3) object column where more than 50%
of the first 100 values embed a `\b(19|20)\d{2}\b` year; (4) a column
with a year/date keyword in its name, numeric, with more than 50% of
values in [1900, 2100].  None of the classification tests reads the
current year. -/
def classifyCol (c : Col) : Option YearSrc :=
  if c.kind.isNumeric then
    let vals := nonNullNums c
    let yearLike := (vals.filter (fun v => decide (1900 ≤ v ∧ v ≤ 2100))).length
    -- exact readings of `year_like > len * 0.7` and (fallback) `... > len * 0.5`
    if (!vals.isEmpty) && decide (10 * yearLike > 7 * vals.length) then
      some (.nums vals)
    else if timelinessNameHint c && (!vals.isEmpty)
        && decide (2 * yearLike > vals.length) then
      some (.nums vals)
    else none
  else
    let strs := nonNullStrs c
    if strs.isEmpty then none
    else
      let parsedYears := strs.filterMap parseDateYear
      -- exact reading of `valid_dates.sum() > len * 0.5`
      if decide (2 * parsedYears.length > strs.length) then
        some (.years parsedYears)
      else
        let sample := strs.take 100
        let extracted := sample.filterMap firstYearMatch
        -- exact reading of `year_matches > len(head(100)) * 0.5`
        if decide (2 * extracted.length > sample.length) then
          some (.years extracted)
        else none

/-- Stale-value count of one classified column (`< current_year - 10`). -/
def colStale (currentYear : ℤ) : YearSrc → ℕ
  | .nums vals => (vals.filter (fun v => decide (v < ((currentYear - 10 : ℤ) : ℚ)))).length
  | .years ys => (ys.filter (fun y => decide (y < currentYear - 10))).length

/-- `year_columns_found` (lines 178, 198, 211, 239, 253). -/
def yearColumnsFound (t : Table) : ℕ :=
  (t.cols.filter (fun c => (classifyCol c).isSome)).length

/-- `old_years_count` (lines 179, 201, 214, 242, 255). -/
def oldYearsCount (t : Table) (currentYear : ℤ) : ℕ :=
  (t.cols.map (fun c => match classifyCol c with
    | some src => colStale currentYear src
    | none => 0)).sum

/-- Timeliness score (lines 258-265): `None` (not applicable) unless a
year column was found and the table has rows. -/
def timelinessScoreOpt (t : Table) (currentYear : ℤ) : Option ℚ :=
  if 0 < yearColumnsFound t ∧ 0 < t.nrows then
    some (max 0 (100 - ((oldYearsCount t currentYear : ℚ) / (t.nrows : ℚ) * 100) * (15 / 10)))
  else none

/-- One entry of `column_details` (lines 268-276). -/
structure ColumnDetail where
  name : String
  dtype : String
  missing : ℕ
deriving DecidableEq

/-- `column_details` (lines 268-276). -/
def columnDetails (t : Table) : List ColumnDetail :=
  t.cols.map (fun c => ⟨c.name, c.kind.dtypeStr, countMissing c⟩)

/-- `applicable_scores` (lines 280-289). -/
def applicableScores (t : Table) (currentYear : ℤ) : List ℚ :=
  [completenessScore t, consistencyScore t, uniquenessScore t,
   validityScore t, accuracyScore t]
  ++ (match timelinessScoreOpt t currentYear with
      | some ts => [ts]
      | none => [])

/-- `overall_score` (line 291). -/
def overallScore (t : Table) (currentYear : ℤ) : ℚ :=
  if (applicableScores t currentYear).isEmpty then 0
  else (applicableScores t currentYear).sum / ((applicableScores t currentYear).length : ℚ)

/-- The flat result record returned at lines 293-321. -/
structure Report where
  total_rows : ℕ
  total_columns : ℕ
  overall_score : ℚ
  completeness_score : ℚ
  missing_values : ℕ
  missing_percentage : ℚ
  consistency_score : ℚ
  consistency_issues : ℕ
  type_inconsistencies : ℕ
  uniqueness_score : ℚ
  duplicate_rows : ℕ
  duplicate_percentage : ℚ
  validity_score : ℚ
  validity_issues : ℕ
  accuracy_score : ℚ
  accuracy_issues : ℕ
  timeliness_score : Option ℚ
  year_columns_found : ℕ
  old_years_count : ℕ
  timeliness_applicable : Bool
  column_details : List ColumnDetail
deriving DecidableEq

/-- `assess_data_quality(df)` (src/data_quality.py:67-321), with the
one impure input `datetime.now().year` (line 180) made an explicit
argument. -/
def assess_data_quality (t : Table) (currentYear : ℤ) : Report where
  total_rows := t.nrows
  total_columns := t.cols.length
  overall_score := overallScore t currentYear
  completeness_score := completenessScore t
  missing_values := missingValues t
  missing_percentage := missingPercentage t
  consistency_score := consistencyScore t
  consistency_issues := consistencyIssues t
  type_inconsistencies := typeInconsistencies t
  uniqueness_score := uniquenessScore t
  duplicate_rows := duplicateRows t
  duplicate_percentage := duplicatePercentage t
  validity_score := validityScore t
  validity_issues := validityIssues t
  accuracy_score := accuracyScore t
  accuracy_issues := accuracyIssues t
  timeliness_score := timelinessScoreOpt t currentYear
  year_columns_found := yearColumnsFound t
  old_years_count := oldYearsCount t currentYear
  timeliness_applicable := (timelinessScoreOpt t currentYear).isSome
  column_details := columnDetails t

/-- Duplicating every row of a table (doubling the row count): a copy
of every row is appended below the original rows.  Row duplicate counts
under `duplicated()` are invariant under the placement of the copies. -/
def doubleTable (t : Table) : Table :=
  ⟨2 * t.nrows, t.cols.map (fun c => ⟨c.name, c.kind, c.cells ++ c.cells⟩)⟩

/-! ### Concrete tables used by witnesses and counterexamples -/

/-- Scenario A of the spec: `[{"age": -5, "name": "Bob"}, {"age": 30, "name": "Alice"}]`. -/
def tblA : Table :=
  ⟨2, [⟨"age", Kind.kInt, [some (Value.num (-5)), some (Value.num 30)]⟩,
       ⟨"name", Kind.kText, [some (Value.str "Bob"), some (Value.str "Alice")]⟩]⟩

/-- Scenario B of the spec: an email column with one malformed value. -/
def colB : Col :=
  ⟨"emails", Kind.kText,
   [some (Value.str "a@b.com"), some (Value.str "not-an-email"), some (Value.str "c@d.org")]⟩

/-- A text column whose first value lacks `@` but is otherwise all emails. -/
def colD : Col :=
  ⟨"contact", Kind.kText,
   [some (Value.str "boss"), some (Value.str "x@y.com"), some (Value.str "z@w.org")]⟩

/-- A numeric year column with one recent and one old year. -/
def tblY : Table :=
  ⟨2, [⟨"year", Kind.kInt, [some (Value.num 2024), some (Value.num 1990)]⟩]⟩

/-- Scenario D of the spec: three identical rows over two columns. -/
def tblD : Table :=
  ⟨3, [⟨"a", Kind.kInt, [some (Value.num 1), some (Value.num 1), some (Value.num 1)]⟩,
       ⟨"b", Kind.kText, [some (Value.str "x"), some (Value.str "x"), some (Value.str "x")]⟩]⟩

/-- An entirely missing object column (e.g. an all-null JSON field). -/
def colM : Col := ⟨"m", Kind.kText, [none, none]⟩

/-- An entirely missing numeric column. -/
def colMnum : Col := ⟨"m2", Kind.kFloat, [none, none]⟩

/-- A numeric column with 13 values, positive IQR and one far outlier. -/
def colX : Col :=
  ⟨"v", Kind.kFloat,
   ([0, 1, 2, 3, 4, 5, 6, 7, 8, 9, 10, 11, 1000] : List ℚ).map (fun q => some (Value.num q))⟩

/-- A numeric column with 12 identical values (IQR = 0). -/
def colZ : Col :=
  ⟨"w", Kind.kFloat, (List.replicate 12 (7 : ℚ)).map (fun q => some (Value.num q))⟩

/-! ### General lemmas -/

theorem totalCells_pos (t : Table) : 0 < totalCells t := by
  unfold totalCells
  split <;> omega

theorem nonNullValues_eq_nil_of_all_none (c : Col)
    (h : c.cells.all Option.isNone = true) : nonNullValues c = [] := by
  unfold nonNullValues
  rw [List.filterMap_eq_nil_iff]
  intro a ha
  have := (List.all_eq_true.mp h) a ha
  cases a with
  | none => rfl
  | some v => simp at this

theorem timeliness_applicable_eq (t : Table) (y : ℤ) :
    (timelinessScoreOpt t y).isSome
      = decide (0 < yearColumnsFound t ∧ 0 < t.nrows) := by
  unfold timelinessScoreOpt
  by_cases h : 0 < yearColumnsFound t ∧ 0 < t.nrows <;> simp [h]

theorem missingValues_le_totalCells (t : Table) (hwf : t.WF) :
    missingValues t ≤ totalCells t := by
  have hbound : ∀ x ∈ t.cols.map countMissing, x ≤ t.nrows := by
    intro x hx
    obtain ⟨c, hc, rfl⟩ := List.mem_map.mp hx
    calc countMissing c ≤ c.cells.length := List.length_filter_le _ _
      _ = t.nrows := hwf c hc
  have hsum : (t.cols.map countMissing).sum ≤ (t.cols.map countMissing).length * t.nrows := by
    have := List.sum_le_card_nsmul (t.cols.map countMissing) t.nrows hbound
    simpa [smul_eq_mul] using this
  have hlen : (t.cols.map countMissing).length = t.cols.length := List.length_map _ _
  unfold missingValues totalCells
  rw [hlen] at hsum
  have hcomm : t.nrows * t.cols.length = t.cols.length * t.nrows := Nat.mul_comm _ _
  split
  · omega
  · omega

theorem clamp_mem_range (x : ℚ) (hx : 0 ≤ x) :
    0 ≤ max 0 (100 - x) ∧ max 0 (100 - x) ≤ 100 :=
  ⟨le_max_left 0 _, max_le (by norm_num) (by linarith)⟩

theorem duplicatePercentage_nonneg (t : Table) : 0 ≤ duplicatePercentage t := by
  unfold duplicatePercentage
  split
  · positivity
  · exact le_refl 0

/-! ### Claim C10 -/

/-- Claim C10: for every input table, the report's `missing_values`
field equals the sum over all `column_details` entries of their
`missing` counts. -/
theorem claim10_missing_values_consistent (t : Table) (y : ℤ) :
    (assess_data_quality t y).missing_values =
      (((assess_data_quality t y).column_details).map ColumnDetail.missing).sum := by
  show missingValues t = ((columnDetails t).map ColumnDetail.missing).sum
  unfold missingValues columnDetails
  rw [List.map_map]
  rfl

/-! ### Claim C2 -/

/-- Claim C2: `overall_score` is the exact arithmetic mean of precisely
the non-null dimension scores: the five always-applicable scores when
`timeliness_score` is null, those five plus `timeliness_score` when it
is not. -/
theorem claim2_overall_is_mean (t : Table) (y : ℤ) :
    (assess_data_quality t y).overall_score =
      match (assess_data_quality t y).timeliness_score with
      | none =>
        ((assess_data_quality t y).completeness_score
          + (assess_data_quality t y).consistency_score
          + (assess_data_quality t y).uniqueness_score
          + (assess_data_quality t y).validity_score
          + (assess_data_quality t y).accuracy_score) / 5
      | some ts =>
        ((assess_data_quality t y).completeness_score
          + (assess_data_quality t y).consistency_score
          + (assess_data_quality t y).uniqueness_score
          + (assess_data_quality t y).validity_score
          + (assess_data_quality t y).accuracy_score + ts) / 6 := by
  show overallScore t y = _
  unfold overallScore applicableScores
  cases h : timelinessScoreOpt t y with
  | none =>
    show (if _ then _ else _) = _
    simp [assess_data_quality, h]
    ring_nf
  | some ts =>
    show (if _ then _ else _) = _
    simp [assess_data_quality, h]
    ring_nf

/-! ### Claim C3 -/

/-- Claim C3: `timeliness_score` is null (equivalently,
`timeliness_applicable` is false, and timeliness is excluded from the
overall average) exactly when no year column was found or the table has
no rows; otherwise it equals
`max(0, 100 - 1.5 * (100 * old_years_count / total_rows))`. -/
theorem claim3_timeliness_applicability (t : Table) (y : ℤ) :
    ((assess_data_quality t y).timeliness_score = none ↔
      (assess_data_quality t y).year_columns_found = 0 ∨ t.nrows = 0)
    ∧ ((assess_data_quality t y).timeliness_applicable = false ↔
        (assess_data_quality t y).timeliness_score = none)
    ∧ ((assess_data_quality t y).year_columns_found ≠ 0 → t.nrows ≠ 0 →
        (assess_data_quality t y).timeliness_score =
          some (max 0 (100 - (15 / 10) *
            (100 * ((assess_data_quality t y).old_years_count : ℚ) / (t.nrows : ℚ)))))
    ∧ ((assess_data_quality t y).timeliness_score = none →
        (assess_data_quality t y).overall_score =
          ((assess_data_quality t y).completeness_score
            + (assess_data_quality t y).consistency_score
            + (assess_data_quality t y).uniqueness_score
            + (assess_data_quality t y).validity_score
            + (assess_data_quality t y).accuracy_score) / 5) := by
  refine ⟨?_, ?_, ?_, ?_⟩
  · show timelinessScoreOpt t y = none ↔ yearColumnsFound t = 0 ∨ t.nrows = 0
    unfold timelinessScoreOpt
    by_cases h : 0 < yearColumnsFound t ∧ 0 < t.nrows <;> simp [h] <;> omega
  · show (timelinessScoreOpt t y).isSome = false ↔ timelinessScoreOpt t y = none
    cases timelinessScoreOpt t y <;> simp
  · intro h1 h2
    show timelinessScoreOpt t y =
      some (max 0 (100 - (15 / 10) * (100 * (oldYearsCount t y : ℚ) / (t.nrows : ℚ))))
    unfold timelinessScoreOpt
    have hc : 0 < yearColumnsFound t ∧ 0 < t.nrows := by
      constructor
      · exact Nat.pos_of_ne_zero h1
      · exact Nat.pos_of_ne_zero h2
    rw [if_pos hc]
    congr 1
    congr 1
    ring
  · intro h
    have := claim2_overall_is_mean t y
    rw [h] at this
    exact this

/-! ### Claim C4 (corrected) -/

/-- Claim C4 counterexample: the current-year value is read from the
system clock inside `assess_data_quality` (line 180), not injected, so
the same table assessed under two different current years yields two
different reports (`tblY` gets timeliness 25 at year 2025 but 0 at year
2100).  This refutes the claim that two runs on the same table produce
identical reports regardless of when they execute. -/
theorem claim4_counterexample :
    assess_data_quality tblY 2025 ≠ assess_data_quality tblY 2100 := by
  intro h
  exact absurd (congrArg Report.old_years_count h) (by decide)

/-- Claim C4 amended: the engine is a deterministic function of the
table and the current year together; every report field other than
`old_years_count`, `timeliness_score` and `overall_score` is already
independent of the current year, and in particular the classification
of year columns and the applicability flag never read the clock. -/
theorem claim4_deterministic_given_clock (t : Table) (y₁ y₂ : ℤ) :
    (assess_data_quality t y₁).total_rows = (assess_data_quality t y₂).total_rows
    ∧ (assess_data_quality t y₁).total_columns = (assess_data_quality t y₂).total_columns
    ∧ (assess_data_quality t y₁).completeness_score = (assess_data_quality t y₂).completeness_score
    ∧ (assess_data_quality t y₁).missing_values = (assess_data_quality t y₂).missing_values
    ∧ (assess_data_quality t y₁).missing_percentage = (assess_data_quality t y₂).missing_percentage
    ∧ (assess_data_quality t y₁).consistency_score = (assess_data_quality t y₂).consistency_score
    ∧ (assess_data_quality t y₁).consistency_issues = (assess_data_quality t y₂).consistency_issues
    ∧ (assess_data_quality t y₁).type_inconsistencies = (assess_data_quality t y₂).type_inconsistencies
    ∧ (assess_data_quality t y₁).uniqueness_score = (assess_data_quality t y₂).uniqueness_score
    ∧ (assess_data_quality t y₁).duplicate_rows = (assess_data_quality t y₂).duplicate_rows
    ∧ (assess_data_quality t y₁).duplicate_percentage = (assess_data_quality t y₂).duplicate_percentage
    ∧ (assess_data_quality t y₁).validity_score = (assess_data_quality t y₂).validity_score
    ∧ (assess_data_quality t y₁).validity_issues = (assess_data_quality t y₂).validity_issues
    ∧ (assess_data_quality t y₁).accuracy_score = (assess_data_quality t y₂).accuracy_score
    ∧ (assess_data_quality t y₁).accuracy_issues = (assess_data_quality t y₂).accuracy_issues
    ∧ (assess_data_quality t y₁).year_columns_found = (assess_data_quality t y₂).year_columns_found
    ∧ (assess_data_quality t y₁).timeliness_applicable = (assess_data_quality t y₂).timeliness_applicable
    ∧ (assess_data_quality t y₁).column_details = (assess_data_quality t y₂).column_details := by
  refine ⟨rfl, rfl, rfl, rfl, rfl, rfl, rfl, rfl, rfl, rfl, rfl, rfl, rfl, rfl, rfl, rfl, ?_, rfl⟩
  show (timelinessScoreOpt t y₁).isSome = (timelinessScoreOpt t y₂).isSome
  rw [timeliness_applicable_eq, timeliness_applicable_eq]

/-- Claim C3 witness: the year table `tblY` assessed at current year
2025 has an applicable timeliness score given by the stated formula. -/
theorem claim3_witness :
    (assess_data_quality tblY 2025).year_columns_found ≠ 0 ∧ tblY.nrows ≠ 0 ∧
    (assess_data_quality tblY 2025).timeliness_score =
      some (max 0 (100 - (15 / 10) *
        (100 * ((assess_data_quality tblY 2025).old_years_count : ℚ) / (tblY.nrows : ℚ)))) :=
  ⟨by decide, by decide,
   (claim3_timeliness_applicability tblY 2025).2.2.1 (by decide) (by decide)⟩

/-! ### Claim C1 -/

/-- Claim C1: for every well-formed input table, every dimension score
the engine produces (the five always-present scores, and the timeliness
score whenever it is not null) lies in [0, 100]. -/
theorem claim1_scores_in_range (t : Table) (y : ℤ) (hwf : t.WF) :
    (0 ≤ (assess_data_quality t y).completeness_score
      ∧ (assess_data_quality t y).completeness_score ≤ 100)
    ∧ (0 ≤ (assess_data_quality t y).consistency_score
      ∧ (assess_data_quality t y).consistency_score ≤ 100)
    ∧ (0 ≤ (assess_data_quality t y).uniqueness_score
      ∧ (assess_data_quality t y).uniqueness_score ≤ 100)
    ∧ (0 ≤ (assess_data_quality t y).validity_score
      ∧ (assess_data_quality t y).validity_score ≤ 100)
    ∧ (0 ≤ (assess_data_quality t y).accuracy_score
      ∧ (assess_data_quality t y).accuracy_score ≤ 100)
    ∧ (∀ ts : ℚ, (assess_data_quality t y).timeliness_score = some ts →
        0 ≤ ts ∧ ts ≤ 100) := by
  have hcpos : (0 : ℚ) < (totalCells t : ℚ) := by
    exact_mod_cast totalCells_pos t
  refine ⟨?_, ?_, ?_, ?_, ?_, ?_⟩
  · show 0 ≤ completenessScore t ∧ completenessScore t ≤ 100
    have hm : (missingValues t : ℚ) ≤ (totalCells t : ℚ) := by
      exact_mod_cast missingValues_le_totalCells t hwf
    unfold completenessScore missingPercentage
    have hdiv : (missingValues t : ℚ) / (totalCells t : ℚ) ≤ 1 := (div_le_one hcpos).mpr hm
    have hnn : 0 ≤ (missingValues t : ℚ) / (totalCells t : ℚ) := by positivity
    constructor
    · nlinarith
    · nlinarith
  · show 0 ≤ consistencyScore t ∧ consistencyScore t ≤ 100
    unfold consistencyScore
    rw [sub_sub]
    exact clamp_mem_range _ (by positivity)
  · show 0 ≤ uniquenessScore t ∧ uniquenessScore t ≤ 100
    unfold uniquenessScore
    rw [sub_sub]
    refine clamp_mem_range _ (add_nonneg (duplicatePercentage_nonneg t) (by positivity))
  · show 0 ≤ validityScore t ∧ validityScore t ≤ 100
    unfold validityScore
    exact clamp_mem_range _ (by positivity)
  · show 0 ≤ accuracyScore t ∧ accuracyScore t ≤ 100
    unfold accuracyScore
    exact clamp_mem_range _ (by positivity)
  · intro ts hts
    have hts' : timelinessScoreOpt t y = some ts := hts
    unfold timelinessScoreOpt at hts'
    split at hts'
    · have hval := Option.some_injective _ hts'
      rw [← hval]
      exact clamp_mem_range _ (by positivity)
    · exact absurd hts' (by simp)

/-- Claim C1 witness: instantiation at the concrete table `tblA`. -/
theorem claim1_witness :
    0 ≤ (assess_data_quality tblA 0).completeness_score
    ∧ (assess_data_quality tblA 0).completeness_score ≤ 100 :=
  (claim1_scores_in_range tblA 0 (by decide)).1

/-! ### Claim C5 -/

/-- Claim C5: for a text-kind column, the email-format check runs
exactly when the first non-missing stringified value contains `@`;
when it runs, every non-missing value failing the email pattern counts
one consistency issue, and when the first value lacks `@` the column
contributes zero invalid-email issues regardless of the remaining
values.  `consistency_issues` is the sum of these per-column counts. -/
theorem claim5_email_check_gate (c : Col) (_hk : c.kind = Kind.kText) :
    (∀ first rest, nonNullStrs c = first :: rest →
      ((first.any (fun ch => ch = '@')) = true →
          emailColIssues c = ((nonNullStrs c).filter (fun s => !emailMatch s)).length)
      ∧ ((first.any (fun ch => ch = '@')) = false → emailColIssues c = 0))
    ∧ (nonNullStrs c = [] → emailColIssues c = 0)
    ∧ (∀ (t : Table) (y : ℤ),
        (assess_data_quality t y).consistency_issues = (t.cols.map emailColIssues).sum) := by
  refine ⟨?_, ?_, fun t y => rfl⟩
  · intro first rest hnn
    constructor
    · intro hat
      unfold emailColIssues
      rw [hnn]
      simp only [hat, if_true]
      split <;> omega
    · intro hat
      unfold emailColIssues
      rw [hnn]
      simp [hat]
  · intro h
    unfold emailColIssues
    rw [h]

/-- Claim C5 witness: scenario B's email column (one malformed value,
check active) and a column whose leading value lacks `@` followed only
by well-formed emails (check skipped, zero issues). -/
theorem claim5_witness :
    emailColIssues colB = ((nonNullStrs colB).filter (fun s => !emailMatch s)).length
    ∧ emailColIssues colB = 1
    ∧ emailColIssues colD = 0
    ∧ emailMatch "x@y.com".toList = true ∧ emailMatch "z@w.org".toList = true := by
  refine ⟨?_, by decide, ?_, by decide, by decide⟩
  · exact ((claim5_email_check_gate colB rfl).1
      "a@b.com".toList ["not-an-email".toList, "c@d.org".toList] (by decide)).1 (by decide)
  · exact ((claim5_email_check_gate colD rfl).1
      "boss".toList ["x@y.com".toList, "z@w.org".toList] (by decide)).2 (by decide)

/-! ### Claim C7 (corrected) -/

/-- Claim C7 counterexample: an entirely missing text-kind column does
not contribute zero issues to every per-column check — the uniqueness
analyzer's per-column duplicate-value count treats the missing cells as
duplicates of each other (pandas `duplicated` considers NaN equal to
NaN), so the all-missing two-row column `colM` contributes 1 duplicate
value, and the one-column table built from it scores 25, not 100, on
uniqueness. -/
theorem claim7_counterexample :
    colM.cells.all Option.isNone = true
    ∧ uniqColDup colM = 1
    ∧ duplicateValuesCount ⟨2, [colM]⟩ = 1
    ∧ uniquenessScore ⟨2, [colM]⟩ = 25 := by
  refine ⟨by decide, by decide, by decide, ?_⟩
  have h1 : duplicateRows ⟨2, [colM]⟩ = 1 := by decide
  have h2 : duplicateValuesCount ⟨2, [colM]⟩ = 1 := by decide
  have h3 : totalCells ⟨2, [colM]⟩ = 2 := by decide
  unfold uniquenessScore duplicatePercentage
  rw [if_pos (by decide), h1, h2, h3]
  norm_num [max_def]

/-- Claim C7 amended: the engine is total (every arithmetic denominator
is the cell count floored at 1, which is positive), and an entirely
missing column contributes zero issues to the consistency, validity,
accuracy and timeliness per-column checks; only the uniqueness
duplicate-value check can still count an all-missing *text*-kind column
(by its pairwise-equal missing cells), while an all-missing
numeric-kind column contributes zero to every per-column check. -/
theorem claim7_amended (t : Table) (c : Col)
    (hall : c.cells.all Option.isNone = true) :
    1 ≤ totalCells t
    ∧ emailColIssues c = 0
    ∧ typeIncCol c = false
    ∧ validityColIssues c = 0
    ∧ accuracyColOutliers c = 0
    ∧ classifyCol c = none
    ∧ (c.kind.isNumeric = true → uniqColDup c = 0) := by
  have hnil : nonNullValues c = [] := nonNullValues_eq_nil_of_all_none c hall
  have hnums : nonNullNums c = [] := by
    unfold nonNullNums
    rw [hnil]
    rfl
  have hstrs : nonNullStrs c = [] := by
    unfold nonNullStrs
    rw [hnil]
    rfl
  refine ⟨totalCells_pos t, ?_, ?_, ?_, ?_, ?_, ?_⟩
  · unfold emailColIssues
    rw [hstrs]
  · unfold typeIncCol
    rw [hnil]
    simp
  · unfold validityColIssues
    rw [hnil]
    rfl
  · unfold accuracyColOutliers
    rw [hnums]
    cases c.kind <;> simp [Kind.isNumeric]
  · unfold classifyCol
    cases c.kind <;> simp [Kind.isNumeric, hnums, hstrs]
  · intro hnum
    unfold uniqColDup
    cases hk : c.kind <;> simp_all [Kind.isNumeric]

/-- Claim C7 amended witness: instantiation at the all-missing numeric
column `colMnum` inside a two-row table. -/
theorem claim7_witness :
    1 ≤ totalCells ⟨2, [colMnum]⟩ ∧ uniqColDup colMnum = 0 :=
  ⟨(claim7_amended ⟨2, [colMnum]⟩ colMnum (by decide)).1,
   (claim7_amended ⟨2, [colMnum]⟩ colMnum (by decide)).2.2.2.2.2.2 rfl⟩

/-! ### Claim C8 -/

/-- Claim C8: on a numeric-kind column whose name contains `age`,
`count` or `quantity` case-insensitively, every negative non-missing
value counts one validity issue; on the scenario-A table the validity
analyzer flags exactly one issue and the validity score is 75. -/
theorem claim8_negative_value_validity :
    (∀ c : Col, c.kind.isNumeric = true → validityNameHint c = true →
        validityColIssues c = ((nonNullNums c).filter (fun v => decide (v < 0))).length)
    ∧ (assess_data_quality tblA 2025).validity_issues = 1
    ∧ (assess_data_quality tblA 2025).validity_score = 75 := by
  refine ⟨?_, by decide, ?_⟩
  · intro c hnum hhint
    have hkt : ¬ c.kind = Kind.kText := by
      cases hk : c.kind <;> simp_all [Kind.isNumeric]
    by_cases he : (nonNullValues c).isEmpty
    · have h0 : nonNullValues c = [] := List.isEmpty_iff.mp he
      unfold validityColIssues
      rw [if_pos he]
      simp [nonNullNums, h0]
    · unfold validityColIssues
      rw [if_neg he]
      simp [hnum, hhint, hkt]
  · show validityScore tblA = 75
    have h1 : validityIssues tblA = 1 := by decide
    have h2 : totalCells tblA = 4 := by decide
    unfold validityScore
    rw [h1, h2]
    norm_num [max_def]

/-- Claim C8 witness: instantiation of the per-column statement at the
`age` column of scenario A. -/
theorem claim8_witness :
    validityColIssues ⟨"age", Kind.kInt, [some (Value.num (-5)), some (Value.num 30)]⟩
      = ((nonNullNums ⟨"age", Kind.kInt, [some (Value.num (-5)), some (Value.num 30)]⟩).filter
          (fun v => decide (v < 0))).length :=
  (claim8_negative_value_validity.1 _ rfl (by decide))

/-! ### Claim C9 -/

theorem quantile_colX_q1 : quantile (nonNullNums colX) (1 / 4) = 3 := by
  show quantile [0, 1, 2, 3, 4, 5, 6, 7, 8, 9, 10, 11, 1000] (1 / 4) = 3
  unfold quantile
  norm_num [List.insertionSort, List.orderedInsert, List.getD_cons_zero, List.getD_cons_succ]
  rfl

theorem quantile_colX_q3 : quantile (nonNullNums colX) (3 / 4) = 9 := by
  show quantile [0, 1, 2, 3, 4, 5, 6, 7, 8, 9, 10, 11, 1000] (3 / 4) = 9
  unfold quantile
  norm_num [List.insertionSort, List.orderedInsert, List.getD_cons_zero, List.getD_cons_succ]
  rfl

theorem quantile_colZ_q1 : quantile (nonNullNums colZ) (1 / 4) = 7 := by
  show quantile [7, 7, 7, 7, 7, 7, 7, 7, 7, 7, 7, 7] (1 / 4) = 7
  unfold quantile
  norm_num [List.insertionSort, List.orderedInsert, List.getD_cons_zero, List.getD_cons_succ]
  show (7 : ℚ) + 3 / 4 * ((7 : ℚ) - (7 : ℚ)) = 7
  norm_num

theorem quantile_colZ_q3 : quantile (nonNullNums colZ) (3 / 4) = 7 := by
  show quantile [7, 7, 7, 7, 7, 7, 7, 7, 7, 7, 7, 7] (3 / 4) = 7
  unfold quantile
  norm_num [List.insertionSort, List.orderedInsert, List.getD_cons_zero, List.getD_cons_succ]
  show (7 : ℚ) + 1 / 4 * ((7 : ℚ) - (7 : ℚ)) = 7
  norm_num

/-- Claim C9: a numeric-kind column contributes to `accuracy_issues`
only when it has more than 10 non-missing values and `IQR = Q3 - Q1`
is positive, in which case the contribution is the number of values
strictly outside `[Q1 - 3*IQR, Q3 + 3*IQR]`; with 10 or fewer values,
or `IQR = 0`, the contribution is exactly 0. -/
theorem claim9_accuracy_iqr_gate (c : Col) (hnum : c.kind.isNumeric = true) :
    (10 < (nonNullNums c).length →
      0 < quantile (nonNullNums c) (3 / 4) - quantile (nonNullNums c) (1 / 4) →
      accuracyColOutliers c = ((nonNullNums c).filter (fun v =>
        decide (v < quantile (nonNullNums c) (1 / 4)
                  - 3 * (quantile (nonNullNums c) (3 / 4) - quantile (nonNullNums c) (1 / 4))
              ∨ quantile (nonNullNums c) (3 / 4)
                  + 3 * (quantile (nonNullNums c) (3 / 4) - quantile (nonNullNums c) (1 / 4)) < v))).length)
    ∧ (((nonNullNums c).length ≤ 10 ∨
          quantile (nonNullNums c) (3 / 4) - quantile (nonNullNums c) (1 / 4) = 0) →
        accuracyColOutliers c = 0) := by
  constructor
  · intro hlen hiqr
    unfold accuracyColOutliers
    rw [if_pos hnum]
    simp only []
    rw [if_pos hlen, if_pos hiqr]
  · intro h
    unfold accuracyColOutliers
    rw [if_pos hnum]
    simp only []
    rcases h with h | h
    · rw [if_neg (by omega)]
    · by_cases hlen : 10 < (nonNullNums c).length
      · rw [if_pos hlen, if_neg (by rw [h]; exact lt_irrefl 0)]
      · rw [if_neg hlen]

/-- Claim C9 witness: the 13-value outlier column `colX` (positive IQR,
outlier fence active) and the constant column `colZ` (IQR = 0, zero
contribution). -/
theorem claim9_witness :
    accuracyColOutliers colX = ((nonNullNums colX).filter (fun v =>
        decide (v < quantile (nonNullNums colX) (1 / 4)
                  - 3 * (quantile (nonNullNums colX) (3 / 4) - quantile (nonNullNums colX) (1 / 4))
              ∨ quantile (nonNullNums colX) (3 / 4)
                  + 3 * (quantile (nonNullNums colX) (3 / 4) - quantile (nonNullNums colX) (1 / 4)) < v))).length
    ∧ accuracyColOutliers colZ = 0 := by
  constructor
  · exact (claim9_accuracy_iqr_gate colX rfl).1 (by decide)
      (by rw [quantile_colX_q3, quantile_colX_q1]; norm_num)
  · exact (claim9_accuracy_iqr_gate colZ rfl).2
      (Or.inr (by rw [quantile_colZ_q3, quantile_colZ_q1]; norm_num))

/-! ### Claim C6 -/

theorem dedup_append_self {α : Type} [DecidableEq α] (l : List α) :
    (l ++ l).dedup.length = l.dedup.length := by
  rw [← List.card_toFinset, ← List.card_toFinset, List.toFinset_append, Finset.union_self]

theorem dedup_length_le {α : Type} [DecidableEq α] (l : List α) :
    l.dedup.length ≤ l.length :=
  (List.dedup_sublist l).length_le

theorem dupCount_le_length {α : Type} [DecidableEq α] (l : List α) :
    dupCount l ≤ l.length := Nat.sub_le _ _

theorem dupCount_append_self {α : Type} [DecidableEq α] (l : List α) :
    dupCount (l ++ l) = l.length + dupCount l := by
  unfold dupCount
  rw [List.length_append, dedup_append_self]
  have := dedup_length_le l
  omega

theorem length_rowsList (t : Table) : (rowsList t).length = t.nrows := by
  simp [rowsList]

theorem rowsList_double (t : Table) (hwf : t.WF) :
    rowsList (doubleTable t) = rowsList t ++ rowsList t := by
  unfold rowsList doubleTable
  show (List.range (2 * t.nrows)).map _ = _
  rw [two_mul, List.range_add, List.map_append, List.map_map]
  congr 1
  · apply List.map_congr_left
    intro i hi
    have hi' : i < t.nrows := List.mem_range.mp hi
    unfold rowAt
    show (t.cols.map _).map _ = _
    rw [List.map_map]
    apply List.map_congr_left
    intro c hc
    show ((c.cells ++ c.cells).getD i none) = c.cells.getD i none
    exact List.getD_append _ _ _ _ (by rw [hwf c hc]; exact hi')
  · apply List.map_congr_left
    intro i hi
    have hi' : i < t.nrows := List.mem_range.mp hi
    unfold rowAt
    show (t.cols.map _).map _ = _
    rw [List.map_map]
    apply List.map_congr_left
    intro c hc
    show ((c.cells ++ c.cells).getD (t.nrows + i) none) = c.cells.getD i none
    rw [List.getD_append_right _ _ _ _ (by rw [hwf c hc]; omega)]
    congr 1
    rw [hwf c hc]
    omega

theorem duplicateRows_double (t : Table) (hwf : t.WF) :
    duplicateRows (doubleTable t) = t.nrows + duplicateRows t := by
  unfold duplicateRows
  rw [rowsList_double t hwf, dupCount_append_self, length_rowsList]

theorem duplicateRows_le (t : Table) : duplicateRows t ≤ t.nrows := by
  have h := dupCount_le_length (rowsList t)
  rwa [length_rowsList] at h

theorem uniqColDup_double_ge (c : Col) :
    2 * uniqColDup c ≤ uniqColDup ⟨c.name, c.kind, c.cells ++ c.cells⟩ := by
  unfold uniqColDup
  by_cases h : c.kind = Kind.kText
  · rw [if_pos h]
    rw [if_pos h]
    rw [dupCount_append_self]
    have := dupCount_le_length c.cells
    omega
  · rw [if_neg h, if_neg h]

theorem two_mul_sum_map (l : List Col) (f : Col → ℕ) :
    2 * (l.map f).sum = (l.map (fun c => 2 * f c)).sum := by
  induction l with
  | nil => rfl
  | cons c cs ih => simp [List.map_cons, List.sum_cons, Nat.mul_add, ih]

theorem duplicateValuesCount_double_ge (t : Table) :
    2 * duplicateValuesCount t ≤ duplicateValuesCount (doubleTable t) := by
  unfold duplicateValuesCount doubleTable
  show 2 * (t.cols.map uniqColDup).sum ≤ ((t.cols.map _).map uniqColDup).sum
  rw [List.map_map, two_mul_sum_map]
  apply List.sum_le_sum
  intro c _
  exact uniqColDup_double_ge c

/-- Claim C6: for every well-formed table with at least one row,
duplicating every row (doubling the row count) never increases the
uniqueness score: both the whole-row duplicate percentage and the
per-text-column duplicate-value penalty can only grow. -/
theorem claim6_duplication_never_raises_uniqueness (t : Table) (y : ℤ) (hwf : t.WF) (hr : 0 < t.nrows) :
    (assess_data_quality (doubleTable t) y).uniqueness_score
      ≤ (assess_data_quality t y).uniqueness_score := by
  show uniquenessScore (doubleTable t) ≤ uniquenessScore t
  have hdp : duplicatePercentage t ≤ duplicatePercentage (doubleTable t) := by
    unfold duplicatePercentage
    have h2r : 0 < (doubleTable t).nrows := by
      show 0 < 2 * t.nrows
      omega
    rw [if_pos hr, if_pos h2r]
    show _ ≤ (duplicateRows (doubleTable t) : ℚ) / ((2 * t.nrows : ℕ) : ℚ) * 100
    rw [duplicateRows_double t hwf]
    have hd : duplicateRows t ≤ t.nrows := duplicateRows_le t
    have hn : (0 : ℚ) < (t.nrows : ℚ) := by exact_mod_cast hr
    have hd' : (duplicateRows t : ℚ) ≤ (t.nrows : ℚ) := by exact_mod_cast hd
    rw [div_mul_eq_mul_div, div_mul_eq_mul_div, div_le_div_iff₀ hn (by positivity)]
    push_cast
    nlinarith
  have hdv : (duplicateValuesCount t : ℚ) / (totalCells t : ℚ) * 50
      ≤ (duplicateValuesCount (doubleTable t) : ℚ) / (totalCells (doubleTable t) : ℚ) * 50 := by
    by_cases hc : t.cols = []
    · have h1 : duplicateValuesCount t = 0 := by
        unfold duplicateValuesCount
        rw [hc]
        rfl
      have h2 : duplicateValuesCount (doubleTable t) = 0 := by
        unfold duplicateValuesCount doubleTable
        rw [hc]
        rfl
      rw [h1, h2]
      norm_num
    · have hlen : 0 < t.cols.length := List.length_pos.mpr hc
      have hcells : totalCells t = t.nrows * t.cols.length := by
        unfold totalCells
        rw [if_pos (Nat.mul_pos hr hlen)]
      have hcells2 : totalCells (doubleTable t) = 2 * t.nrows * t.cols.length := by
        unfold totalCells doubleTable
        simp only [List.length_map]
        rw [if_pos (by positivity)]
      have hv : 2 * duplicateValuesCount t ≤ duplicateValuesCount (doubleTable t) :=
        duplicateValuesCount_double_ge t
      rw [hcells, hcells2]
      have hn : (0 : ℚ) < ((t.nrows * t.cols.length : ℕ) : ℚ) := by
        exact_mod_cast Nat.mul_pos hr hlen
      have hn2 : (0 : ℚ) < ((2 * t.nrows * t.cols.length : ℕ) : ℚ) := by
        exact_mod_cast Nat.mul_pos (by omega) hlen
      rw [div_mul_eq_mul_div, div_mul_eq_mul_div, div_le_div_iff₀ hn hn2]
      have hv' : 2 * (duplicateValuesCount t : ℚ) ≤ (duplicateValuesCount (doubleTable t) : ℚ) := by
        exact_mod_cast hv
      push_cast
      nlinarith [mul_le_mul_of_nonneg_right hv'
        (show (0 : ℚ) ≤ 50 * ((t.nrows : ℚ) * (t.cols.length : ℚ)) by positivity)]
  unfold uniquenessScore
  apply max_le_max le_rfl
  linarith

/-- Claim C6 witness: instantiation at scenario D's table. -/
theorem claim6_witness :
    (assess_data_quality (doubleTable tblD) 0).uniqueness_score
      ≤ (assess_data_quality tblD 0).uniqueness_score :=
  claim6_duplication_never_raises_uniqueness tblD 0 (by decide) (by decide)

end DataQuality
